import Mathlib

/-!
Shallow embedding of `tokeneth/handlers.py` (toshi-ethereum-service).

The repository is a Tornado web service; its handlers are coroutines over a
JSON-RPC Ethereum node (`self.eth`), a redis cache (`self.redis`) and a SQL
ledger (`self.db`).  We embed each handler as a pure Lean function over
explicit parameters standing for those collaborators:

* the chain node becomes functions `eth_getBalance : String → Int`,
  `eth_getTransactionCount : String → Nat`,
  `eth_sendRawTransaction : String → Except String String` (the `Except.error`
  case models a raised `JsonRPCError`);
* the redis cache read `redis.get("nonce:<addr>")` becomes
  `redis_get_nonce : String → Option Nat` (a present redis value is a
  non-empty decimal byte string, hence truthy in Python and converted with
  `int`, so `Option Nat` is faithful);
* the `transactions` table becomes a `List LedgerRow`; the SQL
  `WHERE confirmed IS NULL AND from_address = $1` queries become filters;
* external codec helpers from `tokenbrowser` (decode_transaction,
  signature_from_transaction, validate_signature, data_decoder,
  encode_transaction, sender recovery) are parameters of the handler
  environments, since their code is not part of this repository;
* Python's arbitrary-precision `int` is `Int` (balances can go negative)
  or `Nat` (nonces, gas, values decoded from an RLP transaction are
  non-negative);
* `raise JSONHTTPError(status, body)` becomes `Except.error` of a
  `JSONHTTPError` record holding the status, the error slug and the message;
* side effects of the send pipeline (redis `set`, SQL `INSERT`) become an
  ordered `List Effect` returned next to the HTTP outcome.
-/

namespace Tokeneth

/-- A row of the `transactions` table.  `value` and `estimated_gas_cost` are
stored as decimal strings (the code inserts `str(tx.value)` and
`str(tx.startgas * tx.gasprice)`) and read back with Python `int`, embedded
here by `pyIntOfDec`.  `confirmed` is the nullable confirmation timestamp;
`sender_token_id` is nullable. -/
structure LedgerRow where
  transaction_hash : String
  from_address : String
  to_address : String
  value : String
  estimated_gas_cost : String
  sender_token_id : Option String
  confirmed : Option Nat
deriving DecidableEq, Repr

/-- The body of a `JSONHTTPError` raised by a handler: HTTP status code plus
the single `{id, message}` entry of its `errors` list. -/
structure JSONHTTPError where
  status : Nat
  id : String
  message : String
deriving DecidableEq, Repr

/-- Python `int` applied to a canonical decimal numeral string, as produced
by Python `str` on a non-negative integer (the only strings the code stores
in the `value` and `estimated_gas_cost` columns). -/
def pyIntOfDec (s : String) : Nat :=
  s.data.foldl (fun n c => n * 10 + (c.toNat - 48)) 0

/-- Python `hex` on a non-negative integer: `0x` followed by lowercase
hexadecimal digits. -/
def pyHexNat (n : Nat) : String :=
  "0x" ++ String.mk (Nat.toDigits 16 n)

/-- Python `hex` on an arbitrary integer (negative values render as
`-0x...`). -/
def pyHex (i : Int) : String :=
  if i < 0 then "-0x" ++ String.mk (Nat.toDigits 16 i.natAbs)
  else pyHexNat i.toNat

/-- `BalanceMixin.get_balances` (handlers.py lines 24–58).  Reads the
confirmed balance from the chain, sums the unconfirmed outgoing rows
(`value + estimated_gas_cost`), and — unless `ignore_pending_recieved` —
the unconfirmed incoming rows (`value`); returns
`(confirmed_balance, confirmed_balance + pending_recieved - pending_sent)`.
The Python `if pending_sent and len(pending_sent) > 0` branches are kept. -/
def get_balances (eth_getBalance : String → Int) (db : List LedgerRow)
    (eth_address : String) (ignore_pending_recieved : Bool) : Int × Int :=
  let confirmed_balance := eth_getBalance eth_address
  let pending_sent_rows :=
    db.filter (fun r => r.confirmed.isNone && r.from_address == eth_address)
  let pending_sent : Int :=
    if pending_sent_rows.length > 0 then
      (pending_sent_rows.map
        (fun p => (pyIntOfDec p.value : Int) + (pyIntOfDec p.estimated_gas_cost : Int))).sum
    else 0
  let pending_recieved : Int :=
    if ignore_pending_recieved = false then
      let pending_recieved_rows :=
        db.filter (fun r => r.confirmed.isNone && r.to_address == eth_address)
      if pending_recieved_rows.length > 0 then
        (pending_recieved_rows.map (fun p => (pyIntOfDec p.value : Int))).sum
      else 0
    else 0
  (confirmed_balance, confirmed_balance + pending_recieved - pending_sent)

/-- Response body of `GET /balance/{addr}` on success. -/
structure BalanceResponse where
  confirmed_balance : String
  unconfirmed_balance : String
deriving DecidableEq, Repr

/-- The `invalid_address` error of `BalanceHandler.get`. -/
def invalidAddressError : JSONHTTPError :=
  { status := 400, id := "invalid_address", message := "Invalid Address" }

/-- `BalanceHandler.get` (handlers.py lines 60–72): validate the address,
call `get_balances` with the default `ignore_pending_recieved=False`, and
render both balances with Python `hex`. -/
def BalanceHandler.get (validate_address : String → Bool)
    (eth_getBalance : String → Int) (db : List LedgerRow)
    (address : String) : Except JSONHTTPError BalanceResponse :=
  if validate_address address = false then
    Except.error invalidAddressError
  else
    let cb := get_balances eth_getBalance db address false
    Except.ok { confirmed_balance := pyHex cb.1, unconfirmed_balance := pyHex cb.2 }

/-- Sum of `value + estimated_gas_cost` over the unconfirmed ledger rows
sent from `addr` (the claims' Σ over `from_address = addr` rows). -/
def pendingOutSum (db : List LedgerRow) (addr : String) : Int :=
  ((db.filter (fun r => r.confirmed.isNone && r.from_address == addr)).map
    (fun p => (pyIntOfDec p.value : Int) + (pyIntOfDec p.estimated_gas_cost : Int))).sum

/-- Sum of `value` over the unconfirmed ledger rows addressed to `addr`
(the claims' Σ over `to_address = addr` rows). -/
def pendingInSum (db : List LedgerRow) (addr : String) : Int :=
  ((db.filter (fun r => r.confirmed.isNone && r.to_address == addr)).map
    (fun p => (pyIntOfDec p.value : Int))).sum

/-- The in-flight transaction produced by the external
`tokenbrowser.tx.decode_transaction`.  `to` stands for the canonical hex
encoding of the recipient (the code's `data_encoder(tx.«to»)`); `sig` is the
attached signature, `none` when the transaction is unsigned
(`is_transaction_signed(tx)` is `tx.sig.isSome`). -/
structure Tx where
  nonce : Nat
  gasprice : Nat
  startgas : Nat
  «to» : String
  value : Nat
  sig : Option String
deriving DecidableEq, Repr

/-- A side effect of `SendTransactionHandler.post`: a redis
`set("nonce:<addr>", n)` or an `INSERT INTO transactions` row. -/
inductive Effect where
  | cacheSet (key : String) (val : Nat)
  | dbInsert (row : LedgerRow)
deriving DecidableEq, Repr

/-- Tests whether the effect inserts a ledger row whose primary key is `hsh`. -/
def Effect.isInsertFor (hsh : String) : Effect → Bool
  | Effect.dbInsert row => row.transaction_hash == hsh
  | Effect.cacheSet _ _ => false

/-- Environment of `SendTransactionHandler.post`: the request payload, the
external `tokenbrowser` codec helpers, the chain node, the redis cache and
the ledger.  `sender` is `data_encoder(tx.sender)` (ECDSA sender recovery,
external); `data_decoder` returns `none` when the Python call raises;
`eth_sendRawTransaction`'s `Except.error` carries the `JsonRPCError`
message. -/
structure SendTxEnv where
  is_request_signed : Bool
  verified_token_id : String
  payload_tx : Option String
  payload_signature : Option String
  decode_transaction : String → Option Tx
  signature_from_transaction : Tx → String
  validate_signature : String → Bool
  data_decoder : String → Option String
  sender : Tx → String
  encode_transaction : Tx → String
  eth_getBalance : String → Int
  eth_getTransactionCount : String → Nat
  eth_sendRawTransaction : String → Except String String
  redis_get_nonce : String → Option Nat
  db : List LedgerRow

/-- The `bad_arguments` error. -/
def badArgumentsError : JSONHTTPError :=
  { status := 400, id := "bad_arguments", message := "Bad Arguments" }

/-- The `invalid_transaction` error. -/
def invalidTransactionError : JSONHTTPError :=
  { status := 400, id := "invalid_transaction", message := "Invalid Transaction" }

/-- The `invalid_signature` error. -/
def invalidSignatureError : JSONHTTPError :=
  { status := 400, id := "invalid_signature", message := "Invalid Signature" }

/-- The `missing_signature` error. -/
def missingSignatureError : JSONHTTPError :=
  { status := 400, id := "missing_signature", message := "Missing Signature" }

/-- The `insufficient_funds` error. -/
def insufficientFundsError : JSONHTTPError :=
  { status := 400, id := "insufficient_funds", message := "Insufficient Funds" }

/-- The `invalid_nonce` error of the send pipeline. -/
def invalidNonceLowError : JSONHTTPError :=
  { status := 400, id := "invalid_nonce", message := "Provided nonce is too low" }

/-- The `unexpected_error` response raised when `eth_sendRawTransaction`
fails (handlers.py lines 224–226); its message is a fixed generic string. -/
def unexpectedErrorResponse : JSONHTTPError :=
  { status := 500, id := "unexpected_error",
    message := "An error occured communicating with the ethereum network, try again later" }

/-- The cached/network nonce reconciliation shared by handlers.py lines
101–109 and 206–212: take the network value when there is no cached value or
the network value is larger, else the cached value. -/
def nonceFloor (c_nonce : Option Nat) (nw_nonce : Nat) : Nat :=
  match c_nonce with
  | none => nw_nonce
  | some c => if nw_nonce > c then nw_nonce else c

/-- The signature-reconcile block of `SendTransactionHandler.post`
(handlers.py lines 168–191).  For a signed transaction, a present payload
`signature` must equal `signature_from_transaction(tx)`; for an unsigned
transaction the payload `signature` is required, must pass
`validate_signature`, must decode with `data_decoder`, and is attached with
`add_signature_to_transaction`. -/
def reconcileSignature (env : SendTxEnv) (tx : Tx) : Except JSONHTTPError Tx :=
  if tx.sig.isSome then
    match env.payload_signature with
    | some payload_sig =>
        if env.signature_from_transaction tx ≠ payload_sig then
          Except.error invalidSignatureError
        else
          Except.ok tx
    | none => Except.ok tx
  else
    match env.payload_signature with
    | none => Except.error missingSignatureError
    | some signature =>
        if env.validate_signature signature = false then
          Except.error invalidSignatureError
        else
          match env.data_decoder signature with
          | none => Except.error invalidSignatureError
          | some sig => Except.ok { tx with sig := some sig }

/-- `SendTransactionHandler.post` (handlers.py lines 150–239), returning the
HTTP outcome (`Except.ok tx_hash` or the raised `JSONHTTPError`) together
with the ordered list of state-changing effects the handler performed.  The
`log.info` call has no modelled effect. -/
def SendTransactionHandler.post (env : SendTxEnv) :
    Except JSONHTTPError String × List Effect :=
  let sender_token_id : Option String :=
    if env.is_request_signed then some env.verified_token_id else none
  match env.payload_tx with
  | none => (Except.error badArgumentsError, [])
  | some payload_tx =>
    match env.decode_transaction payload_tx with
    | none => (Except.error invalidTransactionError, [])
    | some tx₀ =>
      match reconcileSignature env tx₀ with
      | Except.error e => (Except.error e, [])
      | Except.ok tx =>
        let from_address := env.sender tx
        let to_address := tx.«to»
        let balance := (get_balances env.eth_getBalance env.db from_address true).2
        if balance < ((tx.value + tx.startgas * tx.gasprice : Nat) : Int) then
          (Except.error insufficientFundsError, [])
        else
          let c_nonce :=
            nonceFloor (env.redis_get_nonce from_address)
              (env.eth_getTransactionCount from_address)
          if tx.nonce < c_nonce then
            (Except.error invalidNonceLowError, [])
          else
            match env.eth_sendRawTransaction (env.encode_transaction tx) with
            | Except.error _ => (Except.error unexpectedErrorResponse, [])
            | Except.ok tx_hash =>
              (Except.ok tx_hash,
                [Effect.cacheSet ("nonce:" ++ from_address) (tx.nonce + 1),
                 Effect.dbInsert
                   { transaction_hash := tx_hash,
                     from_address := from_address,
                     to_address := to_address,
                     value := toString tx.value,
                     estimated_gas_cost := toString (tx.startgas * tx.gasprice),
                     sender_token_id := sender_token_id,
                     confirmed := none }])

/-- A concrete pre-signed decoded transaction used to instantiate the
pipeline theorems. -/
def tx0 : Tx :=
  { nonce := 9, gasprice := 2, startgas := 21000, «to» := "0xbb", value := 100,
    sig := some "sig0" }

/-- A concrete environment on which every step of the send pipeline
succeeds. -/
def goodEnv : SendTxEnv :=
  { is_request_signed := true
    verified_token_id := "token1"
    payload_tx := some "rawtx"
    payload_signature := none
    decode_transaction := fun s => if s == "rawtx" then some tx0 else none
    signature_from_transaction := fun t => t.sig.getD ""
    validate_signature := fun s => s.length == 130
    data_decoder := fun s => some ("bytes:" ++ s)
    sender := fun _ => "0xaa"
    encode_transaction := fun _ => "encodedtx"
    eth_getBalance := fun _ => 1000000
    eth_getTransactionCount := fun _ => 7
    eth_sendRawTransaction := fun _ => Except.ok "0xhash"
    redis_get_nonce := fun _ => some 9
    db := [] }



/-- The JSON body of `POST /tx/skeleton`.  `V` is the type of raw JSON
values fed to the external `parse_int` (Python accepts ints and hex
strings there); the address fields are JSON strings. -/
structure SkeletonJson (V : Type) where
  value : Option V
  toAddress : Option String
  fromAddress : Option String
  nonce : Option V
  gas : Option V
  gas_price : Option V

/-- Environment of `TransactionSkeletonHandler.post`: the external
validators and codec (`parse_int`, `validate_address`,
`create_transaction`/`encode_transaction` fused into one encoder taking
nonce, gasprice, startgas, to, value), the `tokenbrowser` default
constants, the redis cache and the chain node. -/
structure SkeletonEnv (V : Type) where
  parse_int : V → Option Nat
  validate_address : String → Bool
  redis_get : String → Option Nat
  eth_getTransactionCount : String → Nat
  DEFAULT_STARTGAS : Nat
  DEFAULT_GASPRICE : Nat
  encode_transaction : Nat → Nat → Nat → String → Nat → String

/-- The `invalid_from_address` error. -/
def invalidFromAddressError : JSONHTTPError :=
  { status := 400, id := "invalid_from_address", message := "Invalid From Address" }

/-- The `invalid_to_address` error. -/
def invalidToAddressError : JSONHTTPError :=
  { status := 400, id := "invalid_to_address", message := "Invalid To Address" }

/-- The `invalid_value` error. -/
def invalidValueError : JSONHTTPError :=
  { status := 400, id := "invalid_value", message := "Invalid Value" }

/-- The `invalid_nonce` error of the skeleton handler. -/
def invalidNonceError : JSONHTTPError :=
  { status := 400, id := "invalid_nonce", message := "Invalid Nonce" }

/-- The `invalid_gas` error. -/
def invalidGasError : JSONHTTPError :=
  { status := 400, id := "invalid_gas", message := "Invalid Gas" }

/-- The `invalid_gas_price` error. -/
def invalidGasPriceError : JSONHTTPError :=
  { status := 400, id := "invalid_gas_price", message := "Invalid Gas Price" }

/-- Success body of `POST /tx/skeleton`: the echoed `tx_data` fields (the
numeric ones rendered with Python `hex`) and the encoded transaction. -/
structure SkeletonResponse where
  nonce : String
  from_address : String
  to_address : String
  value : String
  startGas : String
  gasPrice : String
  tx : String
deriving DecidableEq, Repr

/-- The optional-field pattern repeated for `nonce`, `gas` and `gas_price`
in handlers.py lines 98–129: an absent field takes the default `dflt`, a
present one goes through `parse_int` and raises `err` when that returns
`None`.  (For `nonce` the default is the cache/chain reconciled value the
code computes in the absent branch.) -/
def resolveOptField {V : Type} (parse_int : V → Option Nat) (dflt : Nat)
    (err : JSONHTTPError) (field : Option V) : Except JSONHTTPError Nat :=
  match field with
  | none => Except.ok dflt
  | some x =>
    match parse_int x with
    | none => Except.error err
    | some n => Except.ok n

/-- `TransactionSkeletonHandler.post` (handlers.py lines 76–146): require
`value`, `to`, `from`; validate both addresses; parse `value` and reject
zero (`if not value`); default `nonce` from the cache/chain reconciliation,
`gas` from `DEFAULT_STARTGAS`, `gas_price` from `DEFAULT_GASPRICE`, parsing
each when supplied; encode the transaction and echo the fields as hex. -/
def TransactionSkeletonHandler.post {V : Type} (env : SkeletonEnv V)
    (json : SkeletonJson V) : Except JSONHTTPError SkeletonResponse :=
  match json.value, json.toAddress, json.fromAddress with
  | some value₀, some to_address, some from_address =>
    if env.validate_address from_address = false then
      Except.error invalidFromAddressError
    else if env.validate_address to_address = false then
      Except.error invalidToAddressError
    else
      match env.parse_int value₀ with
      | none => Except.error invalidValueError
      | some value =>
        if value = 0 then Except.error invalidValueError
        else
          match resolveOptField env.parse_int
              (nonceFloor (env.redis_get ("nonce:" ++ from_address))
                (env.eth_getTransactionCount from_address))
              invalidNonceError json.nonce with
          | Except.error e => Except.error e
          | Except.ok nonce =>
            match resolveOptField env.parse_int env.DEFAULT_STARTGAS
                invalidGasError json.gas with
            | Except.error e => Except.error e
            | Except.ok gas =>
              match resolveOptField env.parse_int env.DEFAULT_GASPRICE
                  invalidGasPriceError json.gas_price with
              | Except.error e => Except.error e
              | Except.ok gas_price =>
                Except.ok
                  { nonce := pyHexNat nonce
                    from_address := from_address
                    to_address := to_address
                    value := pyHexNat value
                    startGas := pyHexNat gas
                    gasPrice := pyHexNat gas_price
                    tx := env.encode_transaction nonce gas_price gas to_address value }
  | _, _, _ => Except.error badArgumentsError

/-- A concrete skeleton environment with chain nonce 7 and empty cache,
matching scenario S1. -/
def skEnv : SkeletonEnv String :=
  { parse_int := fun s => if s.data.all Char.isDigit then some (pyIntOfDec s) else none
    validate_address := fun a => a.data.take 2 == ['0', 'x']
    redis_get := fun _ => none
    eth_getTransactionCount := fun _ => 7
    DEFAULT_STARTGAS := 21000
    DEFAULT_GASPRICE := 20000000000
    encode_transaction := fun nonce gas_price gas to_address value =>
      String.intercalate "|"
        [toString nonce, toString gas_price, toString gas, to_address, toString value] }

/-- The scenario-S1 request: `{from, to, value}` with all optional fields
absent. -/
def skJson : SkeletonJson String :=
  { value := some "100", toAddress := some "0xbb", fromAddress := some "0xaa",
    nonce := none, gas := none, gas_price := none }


/-- The ledger of scenario S6: one unconfirmed incoming row of value 50 for
`0xaa`, one unconfirmed outgoing row from `0xaa` of value 20 and estimated
gas cost 10. -/
def s6db : List LedgerRow :=
  [{ transaction_hash := "h1", from_address := "0xcc", to_address := "0xaa",
     value := "50", estimated_gas_cost := "5", sender_token_id := none,
     confirmed := none },
   { transaction_hash := "h2", from_address := "0xaa", to_address := "0xdd",
     value := "20", estimated_gas_cost := "10", sender_token_id := none,
     confirmed := none }]

/-- The Python branch `sum(...) if rows else 0` equals the plain sum, since
the sum over an empty list is 0. -/
theorem sumIfNonempty (l : List LedgerRow) (f : LedgerRow → Int) :
    (if l.length > 0 then (l.map f).sum else 0) = (l.map f).sum := by
  cases l <;> simp


/-- C1: for every address `A`, chain balance function and ledger,
`get_balances A false` returns `(C, C + Σ value over unconfirmed rows to A
− Σ (value + estimated_gas_cost) over unconfirmed rows from A)` and
`get_balances A true` returns `(C, C − Σ (value + estimated_gas_cost) over
the rows from A)`, in exact integer arithmetic. -/
theorem get_balances_identity (eth_getBalance : String → Int)
    (db : List LedgerRow) (A : String) :
    get_balances eth_getBalance db A false =
      (eth_getBalance A, eth_getBalance A + pendingInSum db A - pendingOutSum db A)
    ∧ get_balances eth_getBalance db A true =
      (eth_getBalance A, eth_getBalance A - pendingOutSum db A) := by
  unfold get_balances pendingInSum pendingOutSum
  refine ⟨?_, ?_⟩ <;>
    simp only [sumIfNonempty, reduceIte,
      if_neg (show ¬(true = false) by decide), add_zero]

/-- C7 counterexample: with chain balance 1000, one unconfirmed pending-in
row of value 50 and one unconfirmed pending-out row of value 20 and
estimated gas cost 10, `GET /balance/0xaa` does not return
`unconfirmed_balance = "0x40c"`: the handler computes
1000 + 50 − 30 = 1020 = 0x3fc. -/
theorem balance_rendering_s6_counterexample :
    BalanceHandler.get (fun _ => true) (fun _ => (1000 : Int)) s6db "0xaa" ≠
      Except.ok { confirmed_balance := "0x3e8", unconfirmed_balance := "0x40c" } := by
  intro h
  have h' : BalanceHandler.get (fun _ => true) (fun _ => (1000 : Int)) s6db "0xaa" =
      Except.ok { confirmed_balance := "0x3e8", unconfirmed_balance := "0x3fc" } := by rfl
  rw [h'] at h
  simp at h

/-- C7 amended: in the S6 scenario the handler returns
`confirmed_balance = "0x3e8"` and `unconfirmed_balance = "0x3fc"`
(1000 + 50 − 30 = 1020 = 0x3fc). -/
theorem balance_rendering_s6 :
    BalanceHandler.get (fun _ => true) (fun _ => (1000 : Int)) s6db "0xaa" =
      Except.ok { confirmed_balance := "0x3e8", unconfirmed_balance := "0x3fc" } := by
  rfl

/-- Helper: on a request that passes every validation, the skeleton handler
returns the encoded transaction and the echoed `tx_data` built from the
resolved nonce, gas and gas price. -/
theorem skeleton_post_eval {V : Type} (env : SkeletonEnv V)
    (json : SkeletonJson V) (value₀ : V) (to_address from_address : String)
    (value nonce gas gas_price : Nat)
    (hv : json.value = some value₀)
    (ht : json.toAddress = some to_address)
    (hf : json.fromAddress = some from_address)
    (hvf : env.validate_address from_address = true)
    (hvt : env.validate_address to_address = true)
    (hpv : env.parse_int value₀ = some value)
    (hnz : value ≠ 0)
    (hnonce : resolveOptField env.parse_int
        (nonceFloor (env.redis_get ("nonce:" ++ from_address))
          (env.eth_getTransactionCount from_address))
        invalidNonceError json.nonce = Except.ok nonce)
    (hgas : resolveOptField env.parse_int env.DEFAULT_STARTGAS
        invalidGasError json.gas = Except.ok gas)
    (hgp : resolveOptField env.parse_int env.DEFAULT_GASPRICE
        invalidGasPriceError json.gas_price = Except.ok gas_price) :
    TransactionSkeletonHandler.post env json =
      Except.ok
        { nonce := pyHexNat nonce
          from_address := from_address
          to_address := to_address
          value := pyHexNat value
          startGas := pyHexNat gas
          gasPrice := pyHexNat gas_price
          tx := env.encode_transaction nonce gas_price gas to_address value } := by
  unfold TransactionSkeletonHandler.post
  rw [hv, ht, hf]
  simp only [hvf, hvt, hpv, hnonce, hgas, hgp, reduceIte, if_neg hnz,
    if_neg (show ¬(true = false) by decide)]

/-- Helper: an absent optional field resolves to its default. -/
theorem resolveOptField_absent {V : Type} (parse_int : V → Option Nat)
    (dflt n : Nat) (err : JSONHTTPError) (field : Option V)
    (hfield : field = none)
    (h : resolveOptField parse_int dflt err field = Except.ok n) : n = dflt := by
  rw [hfield] at h
  simp [resolveOptField] at h
  exact h.symm

/-- C6: on every valid `POST /tx/skeleton` request, an absent `nonce` is
defaulted to the cache/chain reconciliation (the chain transaction count
when the cache is empty), an absent `gas` to `DEFAULT_STARTGAS`, an absent
`gas_price` to `DEFAULT_GASPRICE`, and the echoed `tx_data` renders nonce,
value, startGas and gasPrice with Python `hex`. -/
theorem skeleton_defaults {V : Type} (env : SkeletonEnv V)
    (json : SkeletonJson V) (value₀ : V) (to_address from_address : String)
    (value nonce gas gas_price : Nat)
    (hv : json.value = some value₀)
    (ht : json.toAddress = some to_address)
    (hf : json.fromAddress = some from_address)
    (hvf : env.validate_address from_address = true)
    (hvt : env.validate_address to_address = true)
    (hpv : env.parse_int value₀ = some value)
    (hnz : value ≠ 0)
    (hnonce : resolveOptField env.parse_int
        (nonceFloor (env.redis_get ("nonce:" ++ from_address))
          (env.eth_getTransactionCount from_address))
        invalidNonceError json.nonce = Except.ok nonce)
    (hgas : resolveOptField env.parse_int env.DEFAULT_STARTGAS
        invalidGasError json.gas = Except.ok gas)
    (hgp : resolveOptField env.parse_int env.DEFAULT_GASPRICE
        invalidGasPriceError json.gas_price = Except.ok gas_price) :
    TransactionSkeletonHandler.post env json =
      Except.ok
        { nonce := pyHexNat nonce
          from_address := from_address
          to_address := to_address
          value := pyHexNat value
          startGas := pyHexNat gas
          gasPrice := pyHexNat gas_price
          tx := env.encode_transaction nonce gas_price gas to_address value }
    ∧ (json.nonce = none →
        nonce = nonceFloor (env.redis_get ("nonce:" ++ from_address))
          (env.eth_getTransactionCount from_address))
    ∧ (json.gas = none → gas = env.DEFAULT_STARTGAS)
    ∧ (json.gas_price = none → gas_price = env.DEFAULT_GASPRICE) := by
  refine ⟨skeleton_post_eval env json value₀ to_address from_address value nonce
      gas gas_price hv ht hf hvf hvt hpv hnz hnonce hgas hgp, ?_, ?_, ?_⟩
  · exact fun h => resolveOptField_absent _ _ _ _ _ h hnonce
  · exact fun h => resolveOptField_absent _ _ _ _ _ h hgas
  · exact fun h => resolveOptField_absent _ _ _ _ _ h hgp

/-- C6 witness: scenario S1 — chain nonce 7, empty cache, all optional
fields absent — yields `tx_data.nonce = "0x7"` and the defaults rendered as
hex. -/
theorem skeleton_defaults_witness :
    TransactionSkeletonHandler.post skEnv skJson =
      Except.ok
        { nonce := "0x7", from_address := "0xaa", to_address := "0xbb",
          value := "0x64", startGas := "0x5208", gasPrice := "0x4a817c800",
          tx := "7|20000000000|21000|0xbb|100" }
    ∧ (7 : Nat) = nonceFloor (skEnv.redis_get "nonce:0xaa")
        (skEnv.eth_getTransactionCount "0xaa") := by
  have h := skeleton_defaults skEnv skJson "100" "0xbb" "0xaa" 100 7 21000
    20000000000 rfl rfl rfl (by decide) (by decide) (by decide) (by decide)
    (by rfl) (by rfl) (by rfl)
  exact ⟨h.1.trans (by rfl), (h.2.1 rfl).trans (by rfl)⟩

/-- C10: a `POST /tx/skeleton` request that supplies a parseable `nonce`
field is answered identically for every cache state and every chain
transaction count (the handler reads neither and applies no floor check),
and on success the echoed `tx_data.nonce` is the supplied nonce rendered as
hex and the encoded transaction is built from that same nonce. -/
theorem skeleton_supplied_nonce {V : Type} (env : SkeletonEnv V)
    (json : SkeletonJson V) (value₀ nonce₀ : V)
    (to_address from_address : String) (value nonce gas gas_price : Nat)
    (hv : json.value = some value₀)
    (ht : json.toAddress = some to_address)
    (hf : json.fromAddress = some from_address)
    (hvf : env.validate_address from_address = true)
    (hvt : env.validate_address to_address = true)
    (hpv : env.parse_int value₀ = some value)
    (hnz : value ≠ 0)
    (hn : json.nonce = some nonce₀)
    (hpn : env.parse_int nonce₀ = some nonce)
    (hgas : resolveOptField env.parse_int env.DEFAULT_STARTGAS
        invalidGasError json.gas = Except.ok gas)
    (hgp : resolveOptField env.parse_int env.DEFAULT_GASPRICE
        invalidGasPriceError json.gas_price = Except.ok gas_price) :
    (∀ rg tc, TransactionSkeletonHandler.post
        { env with redis_get := rg, eth_getTransactionCount := tc } json =
      TransactionSkeletonHandler.post env json)
    ∧ TransactionSkeletonHandler.post env json =
        Except.ok
          { nonce := pyHexNat nonce
            from_address := from_address
            to_address := to_address
            value := pyHexNat value
            startGas := pyHexNat gas
            gasPrice := pyHexNat gas_price
            tx := env.encode_transaction nonce gas_price gas to_address value } := by
  constructor
  · intro rg tc
    unfold TransactionSkeletonHandler.post
    rw [hn]
    rfl
  · exact skeleton_post_eval env json value₀ to_address from_address value nonce
      gas gas_price hv ht hf hvf hvt hpv hnz
      (by rw [hn]; simp [resolveOptField, hpn]) hgas hgp

/-- The C10 witness request: supplied nonce `"3"`, below the chain nonce of
`skEnv`. -/
def skJsonNonce3 : SkeletonJson String :=
  { value := some "100", toAddress := some "0xbb", fromAddress := some "0xaa",
    nonce := some "3", gas := none, gas_price := none }

/-- C10 witness: with chain nonce 7 (or 50) and any cache, the supplied
nonce 3 — below the chain value — is echoed as `"0x3"` and encoded
unchanged. -/
theorem skeleton_supplied_nonce_witness :
    TransactionSkeletonHandler.post
        { skEnv with redis_get := fun _ => some 50,
                     eth_getTransactionCount := fun _ => 50 } skJsonNonce3 =
      TransactionSkeletonHandler.post skEnv skJsonNonce3
    ∧ TransactionSkeletonHandler.post skEnv skJsonNonce3 =
        Except.ok
          { nonce := "0x3", from_address := "0xaa", to_address := "0xbb",
            value := "0x64", startGas := "0x5208", gasPrice := "0x4a817c800",
            tx := "3|20000000000|21000|0xbb|100" } := by
  have h := skeleton_supplied_nonce skEnv skJsonNonce3 "100" "3" "0xbb" "0xaa"
    100 3 21000 20000000000 rfl rfl rfl (by decide) (by decide) (by decide)
    (by decide) rfl (by decide) (by rfl) (by rfl)
  exact ⟨h.1 (fun _ => some 50) (fun _ => 50), h.2.trans (by rfl)⟩

/-- Helper: every run of the send pipeline either fails with some
`JSONHTTPError` and performs no effect, or decodes and reconciles the
transaction, broadcasts it successfully, and performs exactly the cache
write followed by the ledger insert. -/
theorem sendtx_cases (env : SendTxEnv) :
    (∃ e, SendTransactionHandler.post env = (Except.error e, []))
    ∨ (∃ p tx₀ tx tx_hash,
        env.payload_tx = some p ∧
        env.decode_transaction p = some tx₀ ∧
        reconcileSignature env tx₀ = Except.ok tx ∧
        env.eth_sendRawTransaction (env.encode_transaction tx) = Except.ok tx_hash ∧
        SendTransactionHandler.post env =
          (Except.ok tx_hash,
            [Effect.cacheSet ("nonce:" ++ env.sender tx) (tx.nonce + 1),
             Effect.dbInsert
               { transaction_hash := tx_hash,
                 from_address := env.sender tx,
                 to_address := tx.«to»,
                 value := toString tx.value,
                 estimated_gas_cost := toString (tx.startgas * tx.gasprice),
                 sender_token_id :=
                   if env.is_request_signed then some env.verified_token_id else none,
                 confirmed := none }])) := by
  rcases hp : env.payload_tx with _ | p
  · exact Or.inl ⟨badArgumentsError, by simp only [SendTransactionHandler.post, hp]⟩
  rcases hd : env.decode_transaction p with _ | tx₀
  · exact Or.inl ⟨invalidTransactionError,
      by simp only [SendTransactionHandler.post, hp, hd]⟩
  rcases hr : reconcileSignature env tx₀ with e | tx
  · exact Or.inl ⟨e, by simp only [SendTransactionHandler.post, hp, hd, hr]⟩
  by_cases hb : (get_balances env.eth_getBalance env.db (env.sender tx) true).2 <
      ((tx.value + tx.startgas * tx.gasprice : Nat) : Int)
  · exact Or.inl ⟨insufficientFundsError,
      by simp only [SendTransactionHandler.post, hp, hd, hr, if_pos hb]⟩
  by_cases hn : tx.nonce < nonceFloor (env.redis_get_nonce (env.sender tx))
      (env.eth_getTransactionCount (env.sender tx))
  · exact Or.inl ⟨invalidNonceLowError,
      by simp only [SendTransactionHandler.post, hp, hd, hr, if_neg hb, if_pos hn]⟩
  rcases hs : env.eth_sendRawTransaction (env.encode_transaction tx) with emsg | tx_hash
  · exact Or.inl ⟨unexpectedErrorResponse,
      by simp only [SendTransactionHandler.post, hp, hd, hr, if_neg hb, if_neg hn, hs]⟩
  · exact Or.inr ⟨p, tx₀, tx, tx_hash, rfl, hd, hr, hs,
      by simp only [SendTransactionHandler.post, hp, hd, hr, if_neg hb, if_neg hn, hs]⟩

/-- C2: after every successful `POST /tx` answering `tx_hash`, the effects
are exactly the cache write `nonce:from ↦ tx.nonce + 1` followed by the
insert of the single ledger row `(tx_hash, from, to, str(tx.value),
str(tx.startgas · tx.gasprice), senderTokenId)`; in particular exactly one
row is inserted for that hash and the cache write precedes the insert. -/
theorem sendtx_success_commits (env : SendTxEnv) (tx_hash : String)
    (effs : List Effect)
    (hok : SendTransactionHandler.post env = (Except.ok tx_hash, effs)) :
    ∃ p tx₀ tx,
      env.payload_tx = some p ∧
      env.decode_transaction p = some tx₀ ∧
      reconcileSignature env tx₀ = Except.ok tx ∧
      effs =
        [Effect.cacheSet ("nonce:" ++ env.sender tx) (tx.nonce + 1),
         Effect.dbInsert
           { transaction_hash := tx_hash,
             from_address := env.sender tx,
             to_address := tx.«to»,
             value := toString tx.value,
             estimated_gas_cost := toString (tx.startgas * tx.gasprice),
             sender_token_id :=
               if env.is_request_signed then some env.verified_token_id else none,
             confirmed := none }] ∧
      (effs.filter (Effect.isInsertFor tx_hash)).length = 1 := by
  rcases sendtx_cases env with ⟨e, he⟩ | ⟨p, tx₀, tx, h', hp, hd, hr, hs, hpost⟩
  · rw [he] at hok
    simp only [Prod.mk.injEq] at hok
    exact absurd hok.1 (by simp)
  · rw [hpost] at hok
    simp only [Prod.mk.injEq, Except.ok.injEq] at hok
    obtain ⟨h1, h2⟩ := hok
    subst h1
    refine ⟨p, tx₀, tx, hp, hd, hr, h2.symm, ?_⟩
    rw [← h2]
    simp [Effect.isInsertFor]

/-- C2 witness: on `goodEnv` the pipeline succeeds with hash `0xhash`,
writing the cache entry `nonce:0xaa ↦ 10` before inserting the single row
for `0xhash`. -/
theorem sendtx_success_commits_witness :
    ∃ p tx₀ tx,
      goodEnv.payload_tx = some p ∧
      goodEnv.decode_transaction p = some tx₀ ∧
      reconcileSignature goodEnv tx₀ = Except.ok tx ∧
      (SendTransactionHandler.post goodEnv).2 =
        [Effect.cacheSet ("nonce:" ++ goodEnv.sender tx) (tx.nonce + 1),
         Effect.dbInsert
           { transaction_hash := "0xhash",
             from_address := goodEnv.sender tx,
             to_address := tx.«to»,
             value := toString tx.value,
             estimated_gas_cost := toString (tx.startgas * tx.gasprice),
             sender_token_id :=
               if goodEnv.is_request_signed then some goodEnv.verified_token_id
               else none,
             confirmed := none }] ∧
      ((SendTransactionHandler.post goodEnv).2.filter
        (Effect.isInsertFor "0xhash")).length = 1 :=
  sendtx_success_commits goodEnv "0xhash" (SendTransactionHandler.post goodEnv).2
    (by rfl)

/-- C9: a `POST /tx` that terminates with any error response performs no
cache write and no ledger insert; and any cache write the pipeline performs
is `nonce:from ↦ tx.nonce + 1`, occurring only when the broadcast succeeded
and the response is the success response. -/
theorem sendtx_error_pure (env : SendTxEnv) :
    (∀ e effs, SendTransactionHandler.post env = (Except.error e, effs) →
      effs = [])
    ∧ (∀ k v, Effect.cacheSet k v ∈ (SendTransactionHandler.post env).2 →
        ∃ p tx₀ tx tx_hash,
          env.payload_tx = some p ∧
          env.decode_transaction p = some tx₀ ∧
          reconcileSignature env tx₀ = Except.ok tx ∧
          env.eth_sendRawTransaction (env.encode_transaction tx) =
            Except.ok tx_hash ∧
          (SendTransactionHandler.post env).1 = Except.ok tx_hash ∧
          k = "nonce:" ++ env.sender tx ∧ v = tx.nonce + 1) := by
  rcases sendtx_cases env with ⟨e₀, he⟩ | ⟨p, tx₀, tx, tx_hash, hp, hd, hr, hs, hpost⟩
  · constructor
    · intro e effs h
      have h' := he.symm.trans h
      simp only [Prod.mk.injEq] at h'
      exact h'.2.symm
    · intro k v hmem
      rw [he] at hmem
      simp at hmem
  · constructor
    · intro e effs h
      have h' := hpost.symm.trans h
      simp only [Prod.mk.injEq] at h'
      exact absurd h'.1 (by simp)
    · intro k v hmem
      rw [hpost] at hmem
      simp only [List.mem_cons, List.not_mem_nil, or_false] at hmem
      rcases hmem with h | h
      · obtain ⟨hk, hv⟩ := Effect.cacheSet.inj h
        exact ⟨p, tx₀, tx, tx_hash, hp, hd, hr, hs, by rw [hpost], hk, hv⟩
      · exact absurd h (by simp)

/-- C9 witness: a request with no `tx` field fails with `bad_arguments`
and performs no effect. -/
theorem sendtx_error_pure_witness :
    (SendTransactionHandler.post { goodEnv with payload_tx := none }).2 = [] :=
  (sendtx_error_pure { goodEnv with payload_tx := none }).1 badArgumentsError
    (SendTransactionHandler.post { goodEnv with payload_tx := none }).2 (by rfl)

/-- C3: once the pipeline reaches the nonce check, it fails with
`invalid_nonce` exactly when `tx.nonce` is below the floor
`nonceFloor cached chain`; that floor is `max(cached, chain)` with an
absent cache entry giving the chain value; every `tx.nonce ≥ floor` passes
the check, however far above the floor. -/
theorem sendtx_nonce_check (env : SendTxEnv) (p : String) (tx₀ tx : Tx)
    (hp : env.payload_tx = some p)
    (hd : env.decode_transaction p = some tx₀)
    (hr : reconcileSignature env tx₀ = Except.ok tx)
    (hb : ¬ (get_balances env.eth_getBalance env.db (env.sender tx) true).2 <
        ((tx.value + tx.startgas * tx.gasprice : Nat) : Int)) :
    ((SendTransactionHandler.post env).1 = Except.error invalidNonceLowError ↔
      tx.nonce < nonceFloor (env.redis_get_nonce (env.sender tx))
        (env.eth_getTransactionCount (env.sender tx)))
    ∧ (∀ c nw, nonceFloor (some c) nw = max c nw)
    ∧ (∀ nw, nonceFloor none nw = nw) := by
  refine ⟨?_, ?_, fun nw => rfl⟩
  · by_cases hn : tx.nonce < nonceFloor (env.redis_get_nonce (env.sender tx))
        (env.eth_getTransactionCount (env.sender tx))
    · exact iff_of_true
        (by simp only [SendTransactionHandler.post, hp, hd, hr, if_neg hb, if_pos hn])
        hn
    · apply iff_of_false _ hn
      intro hEq
      rcases hs : env.eth_sendRawTransaction (env.encode_transaction tx) with e | h
      · rw [show (SendTransactionHandler.post env).1 = Except.error unexpectedErrorResponse
            from by simp only [SendTransactionHandler.post, hp, hd, hr,
              if_neg hb, if_neg hn, hs]] at hEq
        exact absurd (Except.error.inj hEq) (by decide)
      · rw [show (SendTransactionHandler.post env).1 = Except.ok h
            from by simp only [SendTransactionHandler.post, hp, hd, hr,
              if_neg hb, if_neg hn, hs]] at hEq
        simp at hEq
  · intro c nw
    simp only [nonceFloor]
    split <;> omega

/-- The C3 witness environment: the cache leads the chain with nonce 12,
above the submitted nonce 9. -/
def envLowNonce : SendTxEnv :=
  { goodEnv with redis_get_nonce := fun _ => some 12 }

/-- C3 witness: with cached nonce 12, chain nonce 7 and submitted nonce 9,
the pipeline answers `invalid_nonce`. -/
theorem sendtx_nonce_check_witness :
    (SendTransactionHandler.post envLowNonce).1 =
      Except.error invalidNonceLowError :=
  (sendtx_nonce_check envLowNonce "rawtx" tx0 tx0 rfl rfl rfl
    (by decide)).1.mpr (by decide)

/-- C4: once the pipeline reaches the balance check, it fails with
`insufficient_funds` exactly when the effective balance computed with
`ignore_pending_recieved = true` is strictly below
`tx.value + tx.startgas · tx.gasprice`. -/
theorem sendtx_balance_check (env : SendTxEnv) (p : String) (tx₀ tx : Tx)
    (hp : env.payload_tx = some p)
    (hd : env.decode_transaction p = some tx₀)
    (hr : reconcileSignature env tx₀ = Except.ok tx) :
    (SendTransactionHandler.post env).1 = Except.error insufficientFundsError ↔
      (get_balances env.eth_getBalance env.db (env.sender tx) true).2 <
        ((tx.value + tx.startgas * tx.gasprice : Nat) : Int) := by
  by_cases hb : (get_balances env.eth_getBalance env.db (env.sender tx) true).2 <
      ((tx.value + tx.startgas * tx.gasprice : Nat) : Int)
  · exact iff_of_true
      (by simp only [SendTransactionHandler.post, hp, hd, hr, if_pos hb]) hb
  · apply iff_of_false _ hb
    intro hEq
    by_cases hn : tx.nonce < nonceFloor (env.redis_get_nonce (env.sender tx))
        (env.eth_getTransactionCount (env.sender tx))
    · rw [show (SendTransactionHandler.post env).1 = Except.error invalidNonceLowError
          from by simp only [SendTransactionHandler.post, hp, hd, hr,
            if_neg hb, if_pos hn]] at hEq
      exact absurd (Except.error.inj hEq) (by decide)
    · rcases hs : env.eth_sendRawTransaction (env.encode_transaction tx) with e | h
      · rw [show (SendTransactionHandler.post env).1 = Except.error unexpectedErrorResponse
            from by simp only [SendTransactionHandler.post, hp, hd, hr,
              if_neg hb, if_neg hn, hs]] at hEq
        exact absurd (Except.error.inj hEq) (by decide)
      · rw [show (SendTransactionHandler.post env).1 = Except.ok h
            from by simp only [SendTransactionHandler.post, hp, hd, hr,
              if_neg hb, if_neg hn, hs]] at hEq
        simp at hEq

/-- The C4 witness environment: chain balance 10, far below the required
`100 + 21000 · 2`. -/
def envPoor : SendTxEnv :=
  { goodEnv with eth_getBalance := fun _ => 10 }

/-- C4 witness: with chain balance 10 and required 42100, the pipeline
answers `insufficient_funds`. -/
theorem sendtx_balance_check_witness :
    (SendTransactionHandler.post envPoor).1 =
      Except.error insufficientFundsError :=
  (sendtx_balance_check envPoor "rawtx" tx0 tx0 rfl rfl rfl).mpr (by decide)

/-- C8: when `eth_sendRawTransaction` raises `JsonRPCError`, whatever the
upstream error message, the pipeline responds HTTP 500 with slug
`unexpected_error` and a fixed generic message; the response does not
depend on the upstream error. -/
theorem sendtx_broadcast_failure (env : SendTxEnv) (p : String) (tx₀ tx : Tx)
    (emsg : String)
    (hp : env.payload_tx = some p)
    (hd : env.decode_transaction p = some tx₀)
    (hr : reconcileSignature env tx₀ = Except.ok tx)
    (hb : ¬ (get_balances env.eth_getBalance env.db (env.sender tx) true).2 <
        ((tx.value + tx.startgas * tx.gasprice : Nat) : Int))
    (hn : ¬ tx.nonce < nonceFloor (env.redis_get_nonce (env.sender tx))
        (env.eth_getTransactionCount (env.sender tx)))
    (hs : env.eth_sendRawTransaction (env.encode_transaction tx) =
      Except.error emsg) :
    SendTransactionHandler.post env = (Except.error unexpectedErrorResponse, [])
    ∧ unexpectedErrorResponse.status = 500
    ∧ unexpectedErrorResponse.id = "unexpected_error"
    ∧ unexpectedErrorResponse.message =
        "An error occured communicating with the ethereum network, try again later" :=
  ⟨by simp only [SendTransactionHandler.post, hp, hd, hr, if_neg hb, if_neg hn, hs],
   rfl, rfl, rfl⟩

/-- The C8 witness environment: the node rejects the broadcast. -/
def envRpcFail : SendTxEnv :=
  { goodEnv with eth_sendRawTransaction := fun _ => Except.error "boom" }

/-- C8 witness: an upstream `JsonRPCError` with message `"boom"` yields the
generic 500 `unexpected_error` response and no effects. -/
theorem sendtx_broadcast_failure_witness :
    SendTransactionHandler.post envRpcFail =
      (Except.error unexpectedErrorResponse, []) :=
  (sendtx_broadcast_failure envRpcFail "rawtx" tx0 tx0 "boom" rfl rfl rfl
    (by decide) (by decide) rfl).1

/-- C5: the signature-reconcile step — a pre-signed transaction with a
disagreeing companion signature fails `invalid_signature`; with a matching
one, or with none, it proceeds unchanged; an unsigned transaction with no
`signature` field fails `missing_signature`; an unsigned transaction whose
signature fails shape validation or decoding fails `invalid_signature`;
otherwise the decoded signature is attached to the transaction that the
pipeline then derives the sender from. -/
theorem sendtx_signature_reconcile (env : SendTxEnv) (tx : Tx) :
    (∀ s, tx.sig.isSome = true → env.payload_signature = some s →
      env.signature_from_transaction tx ≠ s →
      reconcileSignature env tx = Except.error invalidSignatureError)
    ∧ (∀ s, tx.sig.isSome = true → env.payload_signature = some s →
      env.signature_from_transaction tx = s →
      reconcileSignature env tx = Except.ok tx)
    ∧ (tx.sig.isSome = true → env.payload_signature = none →
      reconcileSignature env tx = Except.ok tx)
    ∧ (tx.sig = none → env.payload_signature = none →
      reconcileSignature env tx = Except.error missingSignatureError)
    ∧ (∀ s, tx.sig = none → env.payload_signature = some s →
      env.validate_signature s = false →
      reconcileSignature env tx = Except.error invalidSignatureError)
    ∧ (∀ s, tx.sig = none → env.payload_signature = some s →
      env.validate_signature s = true → env.data_decoder s = none →
      reconcileSignature env tx = Except.error invalidSignatureError)
    ∧ (∀ s d, tx.sig = none → env.payload_signature = some s →
      env.validate_signature s = true → env.data_decoder s = some d →
      reconcileSignature env tx = Except.ok { tx with sig := some d }) := by
  refine ⟨?_, ?_, ?_, ?_, ?_, ?_, ?_⟩
  · intro s h1 h2 h3
    simp [reconcileSignature, h1, h2, h3]
  · intro s h1 h2 h3
    simp [reconcileSignature, h1, h2, h3]
  · intro h1 h2
    simp [reconcileSignature, h1, h2]
  · intro h1 h2
    simp [reconcileSignature, h1, h2]
  · intro s h1 h2 h3
    simp [reconcileSignature, h1, h2, h3]
  · intro s h1 h2 h3 h4
    simp [reconcileSignature, h1, h2, h3, h4]
  · intro s d h1 h2 h3 h4
    simp [reconcileSignature, h1, h2, h3, h4]

/-- The C5 witness transaction: `tx0` with its signature stripped. -/
def txUnsigned : Tx :=
  { tx0 with sig := none }

/-- C5 witness: an unsigned transaction posted without a `signature` field
fails with `missing_signature`. -/
theorem sendtx_signature_reconcile_witness :
    reconcileSignature goodEnv txUnsigned =
      Except.error missingSignatureError :=
  (sendtx_signature_reconcile goodEnv txUnsigned).2.2.2.1 rfl rfl

end Tokeneth
